import Mathlib

/-!
Verification of the gee_pipeline repository.

This file gives a shallow embedding of the parts of the code that the
claims are about, and theorems settling those claims:

* src/gee_pipeline/silo.py        : coordinate snapping, per-point fetch loop
* src/gee_pipeline/sof.py         : static availability table and request filtering
* src/gee_pipeline/indices.py     : index registry, safe ratio, apply_indices
* src/gee_pipeline/cube.py        : rename_with_date, assemble_cube
* src/gee_pipeline/timeseries.py  : safe_monthly_mosaics
* src/gee_pipeline/runner.py      : run_pipeline_quick stage isolation

Pixel values are modelled as exact rationals.  Earth Engine conventions
that the code relies on are embedded explicitly: division by zero yields
zero (ee.Image.divide documentation), addBands with a colliding band
name keeps both bands and renames the incoming one with a numerical
suffix (ee.Image.addBands documentation, overwrite = false), and
ImageCollection.iterate folds over every element of the collection,
the seed being a separate argument.
-/

namespace GeePipeline

/-! ## Rounding and SILO snapping (src/gee_pipeline/silo.py) -/

/-- Banker rounding as performed by the Python builtin round: round to
the nearest integer, ties going to the nearest even integer. -/
def pyRound (q : ℚ) : ℤ :=
  if q - ⌊q⌋ < 1/2 then ⌊q⌋
  else if 1/2 < q - ⌊q⌋ then ⌊q⌋ + 1
  else if Even ⌊q⌋ then ⌊q⌋ else ⌊q⌋ + 1

/-- Embedding of silo.py line 17, def _snap05(x): return round(x / 0.05) * 0.05,
over exact rationals with 0.05 written as 5/100. -/
def snap05 (x : ℚ) : ℚ := (pyRound (x / (5/100)) : ℚ) * (5/100)

/-- Fixed five-decimal rendering of a rational, the embedding of the
Python format specifier .5f used for the SILO source tag. -/
def fmt5 (q : ℚ) : String :=
  let n := pyRound (q * 100000)
  let sign := if n < 0 then "-" else ""
  let a := n.natAbs
  let ip := a / 100000
  let fp := a % 100000
  let fpStr := toString fp
  sign ++ toString ip ++ "." ++ String.mk (List.replicate (5 - fpStr.length) '0') ++ fpStr

/-! ## Spectral index library (src/gee_pipeline/indices.py) -/

/-- The keys of the INDEX_FUNCS registry of indices.py lines 12-45, in
source order and with the source spelling (note CIre). -/
def INDEX_KEYS : List String :=
  ["NDVI", "EVI", "NDWI", "EVI2", "GNDVI", "GCI", "SAVI", "MSAVI2", "WDRVI",
   "NDRE", "CIre", "NDMI", "NBR", "MNDWI"]

/-- Embedding of indices.py line 48: the set of indices flagged as
requiring 20 m resolution. -/
def INDICES_REQUIRE_20M : List String := ["NDRE", "CIRE", "NDMI", "NBR", "MNDWI"]

/-- Uppercasing of one ASCII character, as Python str.upper acts on the
index names appearing here. -/
def pyUpperChar (c : Char) : Char :=
  if 97 ≤ c.toNat && c.toNat ≤ 122 then Char.ofNat (c.toNat - 32) else c

/-- Python str.upper over the characters of a string. -/
def pyUpper (s : String) : String := String.mk (s.data.map pyUpperChar)

/-- Whitespace test for Python str.strip. -/
def isWs (c : Char) : Bool := c == ' ' || c == '\t' || c == '\n' || c == '\r'

/-- Python str.strip: drop leading and trailing whitespace. -/
def pyStrip (s : String) : String :=
  String.mk (((s.data.dropWhile isWs).reverse.dropWhile isWs).reverse)

/-- Embedding of the canon dictionary of apply_indices (indices.py line 58):
canon = (k.upper(): k for k in INDEX_FUNCS.keys()), queried with canon.get(n). -/
def canonLookup (n : String) : Option String :=
  INDEX_KEYS.find? (fun k => pyUpper k == n)

/-- Python str(s).strip().upper() applied to a requested index name
(indices.py line 57). -/
def normName (s : String) : String := pyUpper (pyStrip s)

/-- An image for the band-level embedding: its ordered band names plus
its scalar metadata properties. -/
structure IImage where
  bands : List String
  props : List (String × Bool)
deriving DecidableEq

/-- Setting a metadata property, as ee.Image.set: any previous value of
the key is replaced. -/
def setProp (props : List (String × Bool)) (key : String) (v : Bool) :
    List (String × Bool) :=
  props.filter (fun kv => kv.fst != key) ++ [(key, v)]

/-- Reading a metadata property of the embedded image. -/
def lookupProp (props : List (String × Bool)) (key : String) : Option Bool :=
  (props.find? (fun kv => kv.fst == key)).map (fun kv => kv.snd)

/-- Smallest unused numerical suffix for a colliding band name, with
explicit fuel (always sufficient in this development). -/
def freshSuffix (existing : List String) (b : String) : ℕ → ℕ → String
  | 0, k => b ++ "_" ++ toString k
  | fuel + 1, k =>
    let c := b ++ "_" ++ toString k
    if existing.contains c then freshSuffix existing b fuel (k + 1) else c

/-- Adding one band to an image, as ee.Image.addBands with the default
overwrite = false: a band whose name is already present is kept and the
incoming band is renamed with a numerical suffix (foo to foo_1). -/
def addBand (dst : List String) (b : String) : List String :=
  if dst.contains b then dst ++ [freshSuffix dst b (dst.length + 1) 1]
  else dst ++ [b]

/-- ee.Image.addBands on whole band lists: every band of the source is
appended in order, with collision renaming. -/
def addBands (dst src : List String) : List String := src.foldl addBand dst

/-- One step of the apply_indices loop (indices.py lines 60-64): a
recognized normalized name adds the single band named by its registry
key; an unknown name leaves the image unchanged. -/
def indexFoldStep (acc : List String) (n : String) : List String :=
  match canonLookup n with
  | some k => addBand acc k
  | none => acc

/-- Embedding of indices.py lines 51-66, def apply_indices(img, names).
The names argument mirrors the Python one: possibly None (falsy, like the
empty list), and possibly containing None entries which are skipped.
Each recognized name adds the single band produced by its index function,
named by the registry key; unknown names are skipped; finally the
has_20m_indices property is set from the normalized name list. -/
def applyIndices (img : IImage) (names : Option (List (Option String))) : IImage :=
  let ns := (names.getD []).filterMap (fun s => s.map normName)
  let outBands := ns.foldl indexFoldStep img.bands
  let has20 := ns.any (fun n => INDICES_REQUIRE_20M.contains n)
  { bands := outBands, props := setProp img.props "has_20m_indices" has20 }

/-- A harmonized image with no derived bands yet, used by the concrete
index-application scenarios. -/
def ndviImg : IImage := { bands := ["NIR", "RED", "GREEN"], props := [] }

/-- A pixel of the canonical-role bands used by the index formulas that
the claims evaluate. -/
structure Pixel where
  nir : ℚ
  red : ℚ
  green : ℚ
  blue : ℚ
  re4 : ℚ
  swir1 : ℚ
  swir2 : ℚ
deriving DecidableEq

/-- Earth Engine division: division by zero returns 0 (ee.Image.divide
documentation); an expression denominator follows the same convention. -/
def eeDiv (a b : ℚ) : ℚ := if b = 0 then 0 else a / b

/-- Embedding of indices.py lines 6-9, def _safe_ratio(num, den):
den.where(den.eq(0), 1e-6) replaces an exactly-zero denominator by the
constant 1e-6 before dividing. -/
def safeRatio (num den : ℚ) : ℚ :=
  eeDiv num (if den = 0 then 1/1000000 else den)

/-- Pixel value of the GCI entry of INDEX_FUNCS (indices.py line 25):
_safe_ratio(NIR, GREEN) - 1. -/
def gciVal (p : Pixel) : ℚ := safeRatio p.nir p.green - 1

/-- Pixel value of the CIre entry of INDEX_FUNCS (indices.py line 41):
_safe_ratio(NIR, RE4) - 1. -/
def cireVal (p : Pixel) : ℚ := safeRatio p.nir p.re4 - 1

/-- The EVI expression denominator, NIR + 6 RED - 7.5 BLUE + 1
(indices.py line 15). -/
def eviDen (p : Pixel) : ℚ := p.nir + 6 * p.red - (15/2) * p.blue + 1

/-- Pixel value of the EVI entry of INDEX_FUNCS (indices.py lines 14-17):
the expression 2.5*((NIR-RED)/(NIR+6*RED-7.5*BLUE+1)), dividing directly
with the engine convention. -/
def eviVal (p : Pixel) : ℚ := (5/2) * eeDiv (p.nir - p.red) (eviDen p)

/-- Follows the words of the spec, for comparison with eviVal: the
division-by-zero guard (replace an exactly-zero denominator by 1e-6
before dividing) applied to the EVI formula. -/
def eviSpecGuarded (p : Pixel) : ℚ :=
  (5/2) * ((p.nir - p.red) / (if eviDen p = 0 then 1/1000000 else eviDen p))

/-- ee.Image.normalizedDifference of two values: (first - second) /
(first + second), with the engine division convention. -/
def eeNd (a b : ℚ) : ℚ := eeDiv (a - b) (a + b)

/-- Pixel value of the NDVI entry of INDEX_FUNCS (indices.py line 13):
normalizedDifference(NIR, RED). -/
def ndviVal (p : Pixel) : ℚ := eeNd p.nir p.red

/-- Pixel value of the NDWI entry of INDEX_FUNCS (indices.py line 18):
normalizedDifference(GREEN, NIR). -/
def ndwiVal (p : Pixel) : ℚ := eeNd p.green p.nir

/-- Pixel value of the GNDVI entry of INDEX_FUNCS (indices.py line 24):
normalizedDifference(NIR, GREEN). -/
def gndviVal (p : Pixel) : ℚ := eeNd p.nir p.green

/-- Pixel value of the NDRE entry of INDEX_FUNCS (indices.py line 40):
normalizedDifference(NIR, RE4). -/
def ndreVal (p : Pixel) : ℚ := eeNd p.nir p.re4

/-- Pixel value of the NDMI entry of INDEX_FUNCS (indices.py line 42):
normalizedDifference(NIR, SWIR1). -/
def ndmiVal (p : Pixel) : ℚ := eeNd p.nir p.swir1

/-- Pixel value of the NBR entry of INDEX_FUNCS (indices.py line 43):
normalizedDifference(NIR, SWIR2). -/
def nbrVal (p : Pixel) : ℚ := eeNd p.nir p.swir2

/-- Pixel value of the MNDWI entry of INDEX_FUNCS (indices.py line 44):
normalizedDifference(GREEN, SWIR1). -/
def mndwiVal (p : Pixel) : ℚ := eeNd p.green p.swir1

/-- The EVI2 expression denominator, NIR + 2.4 RED + 1 (indices.py
line 21). -/
def evi2Den (p : Pixel) : ℚ := p.nir + (12/5) * p.red + 1

/-- Pixel value of the EVI2 entry of INDEX_FUNCS (indices.py lines 20-23):
the expression 2.5*((NIR-RED)/(NIR+2.4*RED+1)), dividing directly with
the engine convention. -/
def evi2Val (p : Pixel) : ℚ := (5/2) * eeDiv (p.nir - p.red) (evi2Den p)

/-- The SAVI expression denominator, NIR + RED + L with L = 0.5
(indices.py line 27). -/
def saviDen (p : Pixel) : ℚ := p.nir + p.red + 1/2

/-- Pixel value of the SAVI entry of INDEX_FUNCS (indices.py lines 26-29):
the expression ((NIR-RED)/(NIR+RED+L))*(1+L) with L = 0.5, dividing
directly with the engine convention. -/
def saviVal (p : Pixel) : ℚ := eeDiv (p.nir - p.red) (saviDen p) * (1 + 1/2)

/-- The WDRVI expression denominator, a*NIR + RED with a = 0.1
(indices.py line 35). -/
def wdrviDen (p : Pixel) : ℚ := (1/10) * p.nir + p.red

/-- Pixel value of the WDRVI entry of INDEX_FUNCS (indices.py lines 34-37):
the expression ((a*NIR - RED)/(a*NIR + RED)) with a = 0.1, dividing
directly with the engine convention. -/
def wdrviVal (p : Pixel) : ℚ := eeDiv ((1/10) * p.nir - p.red) (wdrviDen p)

/-- Pixel value of the MSAVI2 entry of INDEX_FUNCS (indices.py lines
30-33): (2*NIR + 1 - sqrt((2*NIR + 1)^2 - 8*(NIR - RED)))/2, with the
square root kept abstract (it is not rational); its only division is by
the constant 2. -/
def msavi2Val (sqrtFn : ℚ → ℚ) (p : Pixel) : ℚ :=
  eeDiv (2 * p.nir + 1 - sqrtFn ((2 * p.nir + 1)^2 - 8 * (p.nir - p.red))) 2

/-! ## Cube assembly (src/gee_pipeline/cube.py) -/

/-- A monthly composite as seen by the cube assembler: band names plus
the date property stamped by the mosaic stage (a YYYY-MM label). -/
structure CImg where
  bands : List String
  date : String
deriving DecidableEq

/-- Embedding of cube.py lines 5-9, def rename_with_date(img): every
band name is concatenated with an underscore and the date property. -/
def renameWithDate (img : CImg) : CImg :=
  { img with bands := img.bands.map (fun b => b ++ "_" ++ img.date) }

/-- Embedding of cube.py lines 11-17, def assemble_cube(ts): rename every
composite with its date, seed with renamed.first(), then iterate addBands
over the whole renamed collection (the seed is a separate argument of
iterate, so the first composite is also visited as an element).  On an
empty collection first() is null and evaluating the result is a
deterministic Earth Engine error, embedded as the error case. -/
def assembleCube (ts : List CImg) : Except String CImg :=
  let renamed := ts.map renameWithDate
  match renamed with
  | [] => Except.error "assemble_cube: empty collection"
  | first :: rest =>
    Except.ok ((first :: rest).foldl
      (fun prev img => { prev with bands := addBands prev.bands img.bands }) first)

/-! ## Monthly mosaics (src/gee_pipeline/timeseries.py) -/

/-- A calendar date (the acquisition timestamp of an image, at day
granularity, which is all the month bucketing inspects). -/
structure Ymd where
  year : ℕ
  month : ℕ
  day : ℕ
deriving DecidableEq

/-- Order-preserving key for dates (months at most 12, days at most 31),
standing for the system:time_start millisecond timestamp. -/
def dateKey (a : Ymd) : ℕ := (a.year * 13 + a.month) * 32 + a.day

/-- Gregorian leap year test. -/
def isLeap (y : ℕ) : Bool := y % 4 == 0 && (y % 100 != 0 || y % 400 == 0)

/-- Number of days of a calendar month. -/
def daysInMonth (y m : ℕ) : ℕ :=
  if m == 2 then (if isLeap y then 29 else 28)
  else if m == 4 || m == 6 || m == 9 || m == 11 then 30 else 31

/-- ee.Date.advance(i, month): calendar month advance, clamping the day
to the length of the target month. -/
def addMonths (a : Ymd) (i : ℕ) : Ymd :=
  let t := 12 * a.year + (a.month - 1) + i
  let y := t / 12
  let m := t % 12 + 1
  { year := y, month := m, day := min a.day (daysInMonth y m) }

/-- end.difference(start, month).int() for start at most end: the number
of whole calendar months from start to end. -/
def wholeMonthsBetween (s e : Ymd) : ℕ :=
  let k := 12 * e.year + e.month - (12 * s.year + s.month)
  if dateKey (addMonths s k) ≤ dateKey e then k else k - 1

/-- Two-digit zero padding. -/
def pad2 (n : ℕ) : String := if n < 10 then "0" ++ toString n else toString n

/-- ee.Date.format(YYYY-MM). -/
def formatYM (a : Ymd) : String := toString a.year ++ "-" ++ pad2 a.month

/-- An element of the composed time series: only its acquisition date
matters to the bucketing. -/
structure TImg where
  date : Ymd
deriving DecidableEq

/-- One monthly composite: its YYYY-MM label and the constituent images
selected by filterDate. -/
structure Composite where
  label : String
  images : List TImg
deriving DecidableEq

/-- Embedding of timeseries.py lines 12-25, def safe_monthly_mosaics(ts).
first is ts.first(), the head of the collection in collection order (not
sorted); last is the head of the collection sorted descending by
system:time_start, hence the earliest-position maximum; nmonths is
end.difference(start, month).int(); months advances start by 0..nmonths
months; each bucket filters [d, d.advance(1, month)) and is labelled
d.format(YYYY-MM).  An empty collection makes first() null, and
evaluating the result is a deterministic error. -/
def safeMonthlyMosaics (ts : List TImg) : Except String (List Composite) :=
  match ts with
  | [] => Except.error "safe_monthly_mosaics: empty collection"
  | first :: _ =>
    let last := ts.foldl (fun acc x => if dateKey acc.date < dateKey x.date then x else acc) first
    let start := first.date
    let stop := last.date
    let n := wholeMonthsBetween start stop
    let months := (List.range (n + 1)).map (fun i => addMonths start i)
    Except.ok (months.map (fun d =>
      { label := formatYM d,
        images := ts.filter (fun im =>
          dateKey d ≤ dateKey im.date && dateKey im.date < dateKey (addMonths d 1)) }))

/-! ## SOF availability filtering (src/gee_pipeline/sof.py) -/

/-- Embedding of sof.py lines 29-40, def _sof_is_available(family, depth,
stat, fraction); the fraction argument is accepted and ignored exactly as
in the source. -/
def sofIsAvailable (family depth stat _fraction : String) : Bool :=
  if family == "Fractions_Density" then
    (depth == "000_005" || depth == "005_015" || depth == "015_030") &&
    (stat == "EV" || stat == "05" || stat == "95")
  else if family == "Proportions" then
    if depth == "000_005" then stat == "EV" || stat == "05" || stat == "95"
    else if depth == "005_015" || depth == "015_030" then stat == "05" || stat == "95"
    else false
  else if family == "Stocks" then
    depth == "000_030" && stat == "EV"
  else false

/-- One (family, depth, stat, fraction) raster request. -/
structure SOFRequest where
  family : String
  depth : String
  stat : String
  fraction : String
deriving DecidableEq

/-- The request-relevant fields of SOFPointsConfig (sof.py lines 57-64). -/
structure SOFCfg where
  families : List String
  fractions : List String
  depths : List String
  stat : String
deriving DecidableEq

/-- Embedding of the request-building loop of sof_points_quick (sof.py
lines 151-165): for the Stocks family the configured depths are ignored
and the only candidate is (Stocks, 000_030, EV, fraction); otherwise
every (depth, fraction) pair with the configured stat is a candidate;
a candidate is appended only when _sof_is_available accepts it, and is
otherwise skipped with a warning. -/
def sofRequests (cfg : SOFCfg) : List SOFRequest :=
  cfg.families.flatMap (fun fam =>
    if fam == "Stocks" then
      cfg.fractions.filterMap (fun frac =>
        if sofIsAvailable fam "000_030" "EV" frac then
          some { family := fam, depth := "000_030", stat := "EV", fraction := frac }
        else none)
    else
      cfg.depths.flatMap (fun d =>
        cfg.fractions.filterMap (fun frac =>
          if sofIsAvailable fam d cfg.stat frac then
            some { family := fam, depth := d, stat := cfg.stat, fraction := frac }
          else none)))

/-! ## SILO per-point sampling (src/gee_pipeline/silo.py) -/

/-- A datadrill input point in WGS84. -/
structure SPoint where
  lon : ℚ
  lat : ℚ
deriving DecidableEq

/-- The datadrill source tag of silo.py line 122, DD_(lat:.5f)_(lon:.5f),
built from the raw (unsnapped) coordinates. -/
def ddTag (p : SPoint) : String := "DD_" ++ fmt5 p.lat ++ "_" ++ fmt5 p.lon

/-- The per-point loop of silo_points_quick (silo.py lines 119-144) over
an abstract fetch outcome: a successful fetch of a point yields its
parsed rows, every row tagged with the source tag of that point, and the
table is appended to out_tables; a failed fetch is logged and skipped. -/
def siloLoop (fetch : SPoint → Option (List String)) :
    List SPoint → List (List (String × String))
  | [] => []
  | p :: ps =>
    match fetch p with
    | some rows => rows.map (fun r => (r, ddTag p)) :: siloLoop fetch ps
    | none => siloLoop fetch ps

/-- Embedding of silo.py lines 106-157, def silo_points_quick, reduced to
its table-assembly behaviour: run the per-point loop, raise when
out_tables is empty (silo.py lines 146-147), otherwise concatenate all
per-point tables in order. -/
def siloPointsQuick (points : List SPoint) (fetch : SPoint → Option (List String)) :
    Except String (List (String × String)) :=
  let outTables := siloLoop fetch points
  if outTables.isEmpty then
    Except.error "No tables were downloaded; check API credentials/params."
  else Except.ok outTables.flatten

/-- Follows the words of the spec, for comparison with siloPointsQuick:
the rows of exactly the successful points, in point order, each row
tagged with the source identifier of its point. -/
def siloSuccessRows (points : List SPoint) (fetch : SPoint → Option (List String)) :
    List (String × String) :=
  (points.filter (fun p => (fetch p).isSome)).flatMap
    (fun p => ((fetch p).getD []).map (fun r => (r, ddTag p)))

/-! ## Run orchestrator (src/gee_pipeline/runner.py) -/

/-- The outcome of each stage call made by run_pipeline_quick: a stage
either returns (for the two exports, possibly with an artifact path) or
raises with a message. -/
structure Outcomes where
  eeInit : Except String Unit
  loadRoi : Except String Unit
  composeTs : Except String Unit
  mosaics : Except String Unit
  cube : Except String Unit
  exportTable : Except String (Option String)
  exportSamples : Except String (Option String)
  preview : Except String Unit

/-- The run report of report.py: ordered step names, (stage, message)
errors, and (path, kind) artifacts. -/
structure RReport where
  steps : List String
  errors : List (String × String)
  artifacts : List (String × String)
deriving DecidableEq

/-- Embedding of runner.py lines 14-83, def run_pipeline_quick.  The
Except layer represents an uncaught exception: cfg.validate() may raise;
every stage call is wrapped in try/except, an early-stage failure records
the error and returns the report immediately, the two export failures
record the error and fall through, and the preview failure (only when the
preview flag is set) records the error and falls through. -/
def runPipelineQuick (validate : Except String Unit) (o : Outcomes)
    (previewFlag : Bool) : Except String RReport :=
  match validate with
  | Except.error e => Except.error e
  | Except.ok _ =>
    match o.eeInit with
    | Except.error e => Except.ok { steps := [], errors := [("ee.Initialize", e)], artifacts := [] }
    | Except.ok _ =>
      match o.loadRoi with
      | Except.error e => Except.ok { steps := [], errors := [("load_roi", e)], artifacts := [] }
      | Except.ok _ =>
        match o.composeTs with
        | Except.error e =>
          Except.ok { steps := ["ROI loaded"], errors := [("compose_time_series", e)], artifacts := [] }
        | Except.ok _ =>
          match o.mosaics with
          | Except.error e =>
            Except.ok { steps := ["ROI loaded", "Time series composed"],
                        errors := [("safe_monthly_mosaics", e)], artifacts := [] }
          | Except.ok _ =>
            match o.cube with
            | Except.error e =>
              Except.ok { steps := ["ROI loaded", "Time series composed", "Monthly mosaics created"],
                          errors := [("assemble_cube", e)], artifacts := [] }
            | Except.ok _ =>
              let steps4 := ["ROI loaded", "Time series composed", "Monthly mosaics created",
                             "Cube assembled"]
              let r1 : List (String × String) × List (String × String) :=
                match o.exportTable with
                | Except.error e => ([("export_cube_table", e)], [])
                | Except.ok none => ([], [])
                | Except.ok (some p) => ([], [(p, "table")])
              let r2 : List (String × String) × List (String × String) :=
                match o.exportSamples with
                | Except.error e => ([("export_pixel_samples", e)], [])
                | Except.ok none => ([], [])
                | Except.ok (some p) => ([], [(p, "samples")])
              let r3 : List String × List (String × String) :=
                if previewFlag then
                  match o.preview with
                  | Except.error e => ([], [("preview", e)])
                  | Except.ok _ => (["Preview map ready"], [])
                else ([], [])
              Except.ok { steps := steps4 ++ r3.fst,
                          errors := r1.fst ++ r2.fst ++ r3.snd,
                          artifacts := r1.snd ++ r2.snd }

/-- Whether the embedded run ended by raising. -/
def raisedFatal (r : Except String RReport) : Bool :=
  match r with
  | Except.error _ => true
  | Except.ok _ => false

/-! ## Concrete inputs used by the claim theorems -/

/-- The end-to-end scenario of the spec: three monthly composites, each
with the single band NDVI, labelled 2018-01, 2018-02 and 2018-03. -/
def cubeInput3 : List CImg :=
  [{ bands := ["NDVI"], date := "2018-01" },
   { bands := ["NDVI"], date := "2018-02" },
   { bands := ["NDVI"], date := "2018-03" }]

/-- A two-image series that is not in chronological order: the March
image comes first in collection order, the January image second. -/
def unsortedSeries : List TImg :=
  [{ date := { year := 2018, month := 3, day := 15 } },
   { date := { year := 2018, month := 1, day := 10 } }]

/-- A pixel on which the EVI expression denominator is exactly zero. -/
def eviZeroDenPixel : Pixel :=
  { nir := 1, red := 0, green := 0, blue := 4/15, re4 := 0, swir1 := 0, swir2 := 0 }

/-- SOF configuration requesting Proportions at depth 000_005 with the
5th-percentile statistic for a single fraction. -/
def sofProportionsCfg : SOFCfg :=
  { families := ["Proportions"], fractions := ["MAOC"], depths := ["000_005"], stat := "05" }

/-- Stage outcomes in which only the ROI load fails. -/
def roiFailOutcomes : Outcomes :=
  { eeInit := Except.ok (), loadRoi := Except.error "boom",
    composeTs := Except.ok (), mosaics := Except.ok (), cube := Except.ok (),
    exportTable := Except.ok (some "cube_stats.parquet"),
    exportSamples := Except.ok (some "samples.parquet"),
    preview := Except.ok () }

/-! ## Helper lemmas -/

theorem pyRound_eq_floor {q : ℚ} {k : ℤ} (h1 : ⌊q⌋ = k) (h2 : q - k < 1/2) :
    pyRound q = k := by
  unfold pyRound
  rw [h1, if_pos h2]

theorem pyRound_eq_ceil {q : ℚ} {k : ℤ} (h1 : ⌊q⌋ = k) (h2 : 1/2 < q - k) :
    pyRound q = k + 1 := by
  unfold pyRound
  rw [h1, if_neg (by linarith), if_pos h2]

theorem pyRound_intCast (k : ℤ) : pyRound (k : ℚ) = k :=
  pyRound_eq_floor (Int.floor_intCast k) (by norm_num)

/-! ## Claim theorems -/

/-- C1: the spec's end-to-end scenario says three monthly composites of
band NDVI assemble into a cube of exactly the 3 bands NDVI_2018-01,
NDVI_2018-02, NDVI_2018-03.  The code instead yields 4 bands: iterate is
seeded with the first renamed composite and then visits every composite
including the first, so the first month's band is added twice, the
collision being renamed NDVI_2018-01_1.  This theorem evaluates the
embedded assemble_cube on that exact scenario. -/
theorem c1_assemble_cube_three_months_eval :
    assembleCube cubeInput3
      = Except.ok { bands := ["NDVI_2018-01", "NDVI_2018-01_1", "NDVI_2018-02", "NDVI_2018-03"],
                    date := "2018-01" } := rfl

/-- C2: the claim says monthly bucketing spans the minimum to the maximum
acquisition date, the bounds found by sorting ascending and descending.
The code sorts only for the maximum and takes the unsorted collection
head as the start bound, so a series whose first element is the March
image and whose second is the January image yields a single composite
labelled 2018-03, while the claim requires months_between(2018-01-10,
2018-03-15) + 1 = 3 composites. -/
theorem c2_monthly_mosaics_unsorted_eval :
    safeMonthlyMosaics unsortedSeries
      = Except.ok [{ label := "2018-03",
                     images := [{ date := { year := 2018, month := 3, day := 15 } }] }] ∧
    wholeMonthsBetween { year := 2018, month := 1, day := 10 }
        { year := 2018, month := 3, day := 15 } + 1 = 3 := by
  exact ⟨rfl, rfl⟩

/-- C3: applying assemble_cube to an empty monthly sequence fails
deterministically (first() on the empty collection is null, and the
resulting image errors when evaluated) instead of silently producing a
zero-band image: the embedded assemble_cube returns the error case and
not Except.ok of any image. -/
theorem c3_assemble_cube_empty_fails :
    assembleCube [] = Except.error "assemble_cube: empty collection" := rfl

/-- C6: SILO snapping maps 149.123 to 149.10 and -35.456 to -35.45
(nearest multiples of 0.05 under standard rounding), and snapping is
idempotent on every rational coordinate, so the same input always
queries the same grid cell. -/
theorem c6_snap05_grid_and_idempotent :
    snap05 (149123/1000) = 14910/100 ∧
    snap05 (-35456/1000) = -3545/100 ∧
    ∀ x : ℚ, snap05 (snap05 x) = snap05 x := by
  refine ⟨?_, ?_, ?_⟩
  · have e : (149123 : ℚ)/1000 / (5/100) = 149123/50 := by norm_num
    have h1 : ⌊(149123 : ℚ)/50⌋ = 2982 := by norm_num
    have h2 : (149123 : ℚ)/50 - ((2982 : ℤ) : ℚ) < 1/2 := by norm_num
    unfold snap05
    rw [e, pyRound_eq_floor h1 h2]
    norm_num
  · have e : (-35456 : ℚ)/1000 / (5/100) = -17728/25 := by norm_num
    have h1 : ⌊(-17728 : ℚ)/25⌋ = -710 := by norm_num
    have h2 : (1 : ℚ)/2 < -17728/25 - ((-710 : ℤ) : ℚ) := by norm_num
    unfold snap05
    rw [e, pyRound_eq_ceil h1 h2]
    norm_num
  · intro x
    unfold snap05
    rw [mul_div_cancel_right₀ _ (by norm_num : (5 : ℚ)/100 ≠ 0), pyRound_intCast]

/-- C4 counterexample: the claim says every index formula containing a
division replaces an exactly-zero denominator by 1e-6 before dividing.
On a pixel whose EVI expression denominator is exactly zero the code
divides by the raw zero (the engine convention yields 0), whereas the
spec's epsilon substitution would yield 2.5e6; the two computations
disagree, so the EVI division is not epsilon-guarded. -/
theorem c4_evi_zero_denominator_not_guarded :
    eviVal eviZeroDenPixel = 0 ∧
    eviSpecGuarded eviZeroDenPixel = 2500000 ∧
    (decide (eviVal eviZeroDenPixel = eviSpecGuarded eviZeroDenPixel)) = false := by
  have hden : eviDen eviZeroDenPixel = 0 := by
    norm_num [eviDen, eviZeroDenPixel]
  have h1 : eviVal eviZeroDenPixel = 0 := by
    rw [eviVal, eeDiv, if_pos hden, mul_zero]
  have h2 : eviSpecGuarded eviZeroDenPixel = 2500000 := by
    rw [eviSpecGuarded, if_pos hden]
    norm_num [eviZeroDenPixel]
  refine ⟨h1, h2, ?_⟩
  rw [decide_eq_false_iff_not, h1, h2]
  norm_num

/-- C4 amended: only the safe-ratio indices GCI and CIre replace an
exactly-zero denominator by 1e-6 before dividing, producing a finite
value on the epsilon path; every other division in the registry is
unguarded: the seven normalizedDifference indices (NDVI, NDWI, GNDVI,
NDRE, NDMI, NBR, MNDWI) and the expression indices EVI, EVI2, SAVI,
WDRVI divide by their raw band-dependent denominators and rely on the
engine convention that division by zero yields 0, and the only division
of MSAVI2 is by the constant 2, which is never zero; hence no index
computation raises on a zero denominator. -/
theorem c4_safe_ratio_guard_amended :
    (∀ p : Pixel, p.green = 0 → gciVal p = p.nir * 1000000 - 1) ∧
    (∀ p : Pixel, p.re4 = 0 → cireVal p = p.nir * 1000000 - 1) ∧
    (∀ p : Pixel, p.nir + p.red = 0 → ndviVal p = 0) ∧
    (∀ p : Pixel, p.green + p.nir = 0 → ndwiVal p = 0) ∧
    (∀ p : Pixel, p.nir + p.green = 0 → gndviVal p = 0) ∧
    (∀ p : Pixel, p.nir + p.re4 = 0 → ndreVal p = 0) ∧
    (∀ p : Pixel, p.nir + p.swir1 = 0 → ndmiVal p = 0) ∧
    (∀ p : Pixel, p.nir + p.swir2 = 0 → nbrVal p = 0) ∧
    (∀ p : Pixel, p.green + p.swir1 = 0 → mndwiVal p = 0) ∧
    (∀ p : Pixel, eviDen p = 0 → eviVal p = 0) ∧
    (∀ p : Pixel, evi2Den p = 0 → evi2Val p = 0) ∧
    (∀ p : Pixel, saviDen p = 0 → saviVal p = 0) ∧
    (∀ p : Pixel, wdrviDen p = 0 → wdrviVal p = 0) ∧
    (∀ (sqrtFn : ℚ → ℚ) (p : Pixel),
        msavi2Val sqrtFn p
          = (2 * p.nir + 1 - sqrtFn ((2 * p.nir + 1)^2 - 8 * (p.nir - p.red))) / 2) := by
  refine ⟨?_, ?_, ?_, ?_, ?_, ?_, ?_, ?_, ?_, ?_, ?_, ?_, ?_, ?_⟩
  · intro p h
    rw [gciVal, safeRatio, if_pos h, eeDiv, if_neg (by norm_num)]
    rw [div_eq_mul_inv, one_div, inv_inv]
  · intro p h
    rw [cireVal, safeRatio, if_pos h, eeDiv, if_neg (by norm_num)]
    rw [div_eq_mul_inv, one_div, inv_inv]
  · intro p h
    rw [ndviVal, eeNd, eeDiv, if_pos h]
  · intro p h
    rw [ndwiVal, eeNd, eeDiv, if_pos h]
  · intro p h
    rw [gndviVal, eeNd, eeDiv, if_pos h]
  · intro p h
    rw [ndreVal, eeNd, eeDiv, if_pos h]
  · intro p h
    rw [ndmiVal, eeNd, eeDiv, if_pos h]
  · intro p h
    rw [nbrVal, eeNd, eeDiv, if_pos h]
  · intro p h
    rw [mndwiVal, eeNd, eeDiv, if_pos h]
  · intro p h
    rw [eviVal, eeDiv, if_pos h, mul_zero]
  · intro p h
    rw [evi2Val, eeDiv, if_pos h, mul_zero]
  · intro p h
    rw [saviVal, eeDiv, if_pos h, zero_mul]
  · intro p h
    rw [wdrviVal, eeDiv, if_pos h]
  · intro sqrtFn p
    rw [msavi2Val, eeDiv, if_neg (by norm_num)]

/-- C4 amended witness: concrete pixels exercising the epsilon path of
GCI and CIre and the zero-denominator path of every unguarded division
in the registry. -/
theorem c4_safe_ratio_guard_amended_witness :
    gciVal { nir := 2, red := 0, green := 0, blue := 0, re4 := 0, swir1 := 0, swir2 := 0 }
        = 1999999 ∧
    cireVal { nir := 2, red := 0, green := 0, blue := 0, re4 := 0, swir1 := 0, swir2 := 0 }
        = 1999999 ∧
    ndviVal { nir := 1, red := -1, green := 0, blue := 0, re4 := 0, swir1 := 0, swir2 := 0 }
        = 0 ∧
    ndwiVal { nir := 1, red := 0, green := -1, blue := 0, re4 := 0, swir1 := 0, swir2 := 0 }
        = 0 ∧
    gndviVal { nir := 1, red := 0, green := -1, blue := 0, re4 := 0, swir1 := 0, swir2 := 0 }
        = 0 ∧
    ndreVal { nir := 1, red := 0, green := 0, blue := 0, re4 := -1, swir1 := 0, swir2 := 0 }
        = 0 ∧
    ndmiVal { nir := 1, red := 0, green := 0, blue := 0, re4 := 0, swir1 := -1, swir2 := 0 }
        = 0 ∧
    nbrVal { nir := 1, red := 0, green := 0, blue := 0, re4 := 0, swir1 := 0, swir2 := -1 }
        = 0 ∧
    mndwiVal { nir := 0, red := 0, green := 1, blue := 0, re4 := 0, swir1 := -1, swir2 := 0 }
        = 0 ∧
    eviVal eviZeroDenPixel = 0 ∧
    evi2Val { nir := 1, red := -5/6, green := 0, blue := 0, re4 := 0, swir1 := 0, swir2 := 0 }
        = 0 ∧
    saviVal { nir := 0, red := -1/2, green := 0, blue := 0, re4 := 0, swir1 := 0, swir2 := 0 }
        = 0 ∧
    wdrviVal { nir := 10, red := -1, green := 0, blue := 0, re4 := 0, swir1 := 0, swir2 := 0 }
        = 0 ∧
    msavi2Val (fun _ => 0) { nir := 0, red := 0, green := 0, blue := 0, re4 := 0, swir1 := 0, swir2 := 0 } = 1/2 := by
  refine ⟨?_, ?_, ?_, ?_, ?_, ?_, ?_, ?_, ?_, ?_, ?_, ?_, ?_, ?_⟩
  · rw [c4_safe_ratio_guard_amended.1 _ rfl]
    norm_num
  · rw [c4_safe_ratio_guard_amended.2.1 _ rfl]
    norm_num
  · exact c4_safe_ratio_guard_amended.2.2.1 _ (by norm_num)
  · exact c4_safe_ratio_guard_amended.2.2.2.1 _ (by norm_num)
  · exact c4_safe_ratio_guard_amended.2.2.2.2.1 _ (by norm_num)
  · exact c4_safe_ratio_guard_amended.2.2.2.2.2.1 _ (by norm_num)
  · exact c4_safe_ratio_guard_amended.2.2.2.2.2.2.1 _ (by norm_num)
  · exact c4_safe_ratio_guard_amended.2.2.2.2.2.2.2.1 _ (by norm_num)
  · exact c4_safe_ratio_guard_amended.2.2.2.2.2.2.2.2.1 _ (by norm_num)
  · exact c4_safe_ratio_guard_amended.2.2.2.2.2.2.2.2.2.1 eviZeroDenPixel
      (by norm_num [eviDen, eviZeroDenPixel])
  · exact c4_safe_ratio_guard_amended.2.2.2.2.2.2.2.2.2.2.1 _ (by norm_num [evi2Den])
  · exact c4_safe_ratio_guard_amended.2.2.2.2.2.2.2.2.2.2.2.1 _ (by norm_num [saviDen])
  · exact c4_safe_ratio_guard_amended.2.2.2.2.2.2.2.2.2.2.2.2.1 _ (by norm_num [wdrviDen])
  · rw [c4_safe_ratio_guard_amended.2.2.2.2.2.2.2.2.2.2.2.2.2 (fun _ => 0)]
    norm_num

theorem addBand_append (dst : List String) (b : String) :
    ∃ c, addBand dst b = dst ++ [c] := by
  unfold addBand
  split <;> exact ⟨_, rfl⟩

theorem addBand_length (dst : List String) (b : String) :
    (addBand dst b).length = dst.length + 1 := by
  unfold addBand
  split <;> simp

theorem indexFoldStep_append (acc : List String) (n : String) :
    ∃ t, indexFoldStep acc n = acc ++ t := by
  unfold indexFoldStep
  cases h : canonLookup n with
  | none => exact ⟨[], by simp⟩
  | some k =>
    obtain ⟨c, hc⟩ := addBand_append acc k
    exact ⟨[c], hc⟩

theorem foldl_indexFoldStep_append (ns : List String) :
    ∀ acc, ∃ t, ns.foldl indexFoldStep acc = acc ++ t := by
  induction ns with
  | nil => exact fun acc => ⟨[], by simp⟩
  | cons n ns ih =>
    intro acc
    obtain ⟨t1, h1⟩ := indexFoldStep_append acc n
    obtain ⟨t2, h2⟩ := ih (acc ++ t1)
    exact ⟨t1 ++ t2, by rw [List.foldl_cons, h1, h2, List.append_assoc]⟩

theorem foldl_indexFoldStep_length (ns : List String) :
    ∀ acc : List String,
      (ns.foldl indexFoldStep acc).length
        = acc.length + ns.countP (fun n => (canonLookup n).isSome) := by
  induction ns with
  | nil => intro acc; simp
  | cons n ns ih =>
    intro acc
    rw [List.foldl_cons, ih, List.countP_cons]
    cases h : canonLookup n with
    | none => simp [indexFoldStep, h]
    | some k => simp [indexFoldStep, h, addBand_length]; omega

theorem foldl_indexFoldStep_id (ns : List String) :
    ∀ acc, ns.all (fun n => (canonLookup n).isNone) = true →
      ns.foldl indexFoldStep acc = acc := by
  induction ns with
  | nil => intro acc _; rfl
  | cons n ns ih =>
    intro acc hall
    rw [List.all_cons, Bool.and_eq_true] at hall
    have hn : canonLookup n = none := Option.isNone_iff_eq_none.mp hall.1
    rw [List.foldl_cons]
    have hstep : indexFoldStep acc n = acc := by simp [indexFoldStep, hn]
    rw [hstep]
    exact ih acc hall.2

theorem require20m_recognized :
    ∀ n ∈ INDICES_REQUIRE_20M, (canonLookup n).isSome = true := by decide

theorem contains20m_false_of_unknown {n : String} (h : canonLookup n = none) :
    INDICES_REQUIRE_20M.contains n = false := by
  cases hb : INDICES_REQUIRE_20M.contains n
  · rfl
  · exfalso
    have hm : n ∈ INDICES_REQUIRE_20M := by
      rw [List.contains_iff_exists_mem_beq] at hb
      obtain ⟨m, hm, he⟩ := hb
      rwa [show n = m from eq_of_beq he]
    have hsome := require20m_recognized n hm
    rw [h] at hsome
    simp at hsome

theorem any20m_false_of_all_unknown (ns : List String)
    (hall : ns.all (fun n => (canonLookup n).isNone) = true) :
    ns.any (fun n => INDICES_REQUIRE_20M.contains n) = false := by
  induction ns with
  | nil => rfl
  | cons n ns ih =>
    rw [List.all_cons, Bool.and_eq_true] at hall
    rw [List.any_cons, contains20m_false_of_unknown (Option.isNone_iff_eq_none.mp hall.1),
      ih hall.2]
    rfl

theorem lookupProp_setProp (props : List (String × Bool)) (key : String) (v : Bool) :
    lookupProp (setProp props key v) key = some v := by
  unfold lookupProp setProp
  rw [List.find?_append]
  have h1 : (props.filter (fun kv => kv.fst != key)).find? (fun kv => kv.fst == key)
      = none := by
    rw [List.find?_eq_none]
    intro x hx
    have h2 := (List.mem_filter.mp hx).2
    rw [bne_iff_ne, ne_eq] at h2
    simp [h2]
  rw [h1]
  simp

/-- C5: an unknown index name anywhere in a request list is silently
skipped, leaving the output of apply_indices (bands and the 20 m flag)
exactly what it would be without that name; and on requested names
NDVI, BOGUS, NDWI the concrete image gains exactly the two new bands
NDVI and NDWI. -/
theorem c5_unknown_index_skipped :
    (∀ (img : IImage) (l1 l2 : List (Option String)) (s : String),
        canonLookup (normName s) = none →
        applyIndices img (some (l1 ++ [some s] ++ l2))
          = applyIndices img (some (l1 ++ l2))) ∧
    (applyIndices ndviImg (some [some "NDVI", some "BOGUS", some "NDWI"])).bands
      = ["NIR", "RED", "GREEN", "NDVI", "NDWI"] := by
  constructor
  · intro img l1 l2 s h
    have hcont := contains20m_false_of_unknown h
    simp only [applyIndices, Option.getD_some, List.filterMap_append, List.filterMap_cons,
      List.filterMap_nil, Option.map_some', List.foldl_append, List.foldl_cons,
      List.foldl_nil, List.any_append, List.any_cons, List.any_nil]
    rw [show indexFoldStep (List.foldl indexFoldStep img.bands
          (List.filterMap (fun s => s.map normName) l1)) (normName s)
        = List.foldl indexFoldStep img.bands
            (List.filterMap (fun s => s.map normName) l1) by simp [indexFoldStep, h]]
    rw [hcont]
    simp
  · decide

/-- C5 witness: dropping the unknown name BOGUS from a singleton request
list leaves apply_indices unchanged. -/
theorem c5_unknown_index_skipped_witness :
    applyIndices ndviImg (some [some "BOGUS"]) = applyIndices ndviImg (some []) :=
  c5_unknown_index_skipped.1 ndviImg [] [] "BOGUS" (by decide)

/-- C10: apply_indices keeps the existing bands unchanged as a prefix in
their original order, appends exactly one band per recognized requested
name, always sets the has_20m_indices property, whose value is the
disjunction over the trimmed-and-uppercased requested names of
membership in the 20 m set, and when no requested name is recognized the
output differs from the input only in that property. -/
theorem c10_apply_indices_frame :
    (∀ (img : IImage) (names : Option (List (Option String))),
        (applyIndices img names).bands.take img.bands.length = img.bands) ∧
    (∀ (img : IImage) (names : Option (List (Option String))),
        (applyIndices img names).bands.length
          = img.bands.length
            + ((names.getD []).filterMap (fun s => s.map normName)).countP
                (fun n => (canonLookup n).isSome)) ∧
    (∀ (img : IImage) (names : Option (List (Option String))),
        lookupProp (applyIndices img names).props "has_20m_indices"
          = some (((names.getD []).filterMap (fun s => s.map normName)).any
              (fun n => INDICES_REQUIRE_20M.contains n))) ∧
    (∀ (img : IImage) (names : Option (List (Option String))),
        ((names.getD []).filterMap (fun s => s.map normName)).all
            (fun n => (canonLookup n).isNone) = true →
        applyIndices img names
          = { img with props := setProp img.props "has_20m_indices" false }) := by
  refine ⟨?_, ?_, ?_, ?_⟩
  · intro img names
    obtain ⟨t, ht⟩ := foldl_indexFoldStep_append
      ((names.getD []).filterMap (fun s => s.map normName)) img.bands
    simp only [applyIndices]
    rw [ht, List.take_left]
  · intro img names
    simp only [applyIndices]
    rw [foldl_indexFoldStep_length]
  · intro img names
    simp only [applyIndices]
    rw [lookupProp_setProp]
  · intro img names hall
    simp only [applyIndices]
    rw [foldl_indexFoldStep_id _ _ hall, any20m_false_of_all_unknown _ hall]

/-- C10 witness: on a request list containing only the unknown name
BOGUS, apply_indices returns the input image with only the
has_20m_indices property set to false. -/
theorem c10_apply_indices_frame_witness :
    applyIndices ndviImg (some [some "BOGUS"])
      = { ndviImg with props := setProp ndviImg.props "has_20m_indices" false } :=
  c10_apply_indices_frame.2.2.2 ndviImg (some [some "BOGUS"]) (by decide)

/-- C7: the request list built by sof_points_quick only ever contains
combinations the static availability table accepts; the combination
(Stocks, 000_005) is unavailable for every statistic and fraction and
hence never issued; (Proportions, 015_030, EV) is unavailable and never
issued; (Proportions, 000_005, 05) is available, and the concrete
configuration requesting it produces exactly that request. -/
theorem c7_sof_availability_filtering :
    (∀ (cfg : SOFCfg) (r : SOFRequest), r ∈ sofRequests cfg →
        sofIsAvailable r.family r.depth r.stat r.fraction = true) ∧
    (∀ s f : String, sofIsAvailable "Stocks" "000_005" s f = false) ∧
    (∀ f : String, sofIsAvailable "Proportions" "015_030" "EV" f = false) ∧
    (∀ f : String, sofIsAvailable "Proportions" "000_005" "05" f = true) ∧
    sofRequests sofProportionsCfg
      = [{ family := "Proportions", depth := "000_005", stat := "05", fraction := "MAOC" }] := by
  refine ⟨?_, fun s f => rfl, fun f => rfl, fun f => rfl, by decide⟩
  intro cfg r hr
  unfold sofRequests at hr
  rcases List.mem_flatMap.mp hr with ⟨fam, _, hfam⟩
  by_cases hst : (fam == "Stocks") = true
  · rw [if_pos hst] at hfam
    rcases List.mem_filterMap.mp hfam with ⟨frac, _, heq⟩
    split_ifs at heq with hav
    · cases heq
      exact hav
  · rw [if_neg hst] at hfam
    rcases List.mem_flatMap.mp hfam with ⟨d, _, hd⟩
    rcases List.mem_filterMap.mp hd with ⟨frac, _, heq⟩
    split_ifs at heq with hav
    · cases heq
      exact hav

/-- C7 witness: the available Proportions request is issued by the
concrete configuration and passes the availability table. -/
theorem c7_sof_availability_filtering_witness :
    sofIsAvailable "Proportions" "000_005" "05" "MAOC" = true :=
  c7_sof_availability_filtering.1 sofProportionsCfg
    { family := "Proportions", depth := "000_005", stat := "05", fraction := "MAOC" }
    (by decide)

theorem siloLoop_flatten_eq (fetch : SPoint → Option (List String)) :
    ∀ points, (siloLoop fetch points).flatten = siloSuccessRows points fetch := by
  intro points
  induction points with
  | nil => rfl
  | cons p ps ih =>
    cases h : fetch p with
    | none =>
      simp only [siloLoop, siloSuccessRows, List.filter_cons, h, Option.isSome_none] at ih ⊢
      exact ih
    | some rows =>
      simp only [siloLoop, siloSuccessRows, List.filter_cons, h, Option.isSome_some,
        if_true, List.flatten_cons, List.flatMap_cons, Option.getD_some] at ih ⊢
      rw [ih]

theorem siloLoop_nil_iff (fetch : SPoint → Option (List String)) :
    ∀ points, siloLoop fetch points = [] ↔ ∀ p ∈ points, fetch p = none := by
  intro points
  induction points with
  | nil => simp [siloLoop]
  | cons p ps ih =>
    cases h : fetch p with
    | none =>
      simp only [siloLoop, h]
      rw [ih]
      constructor
      · intro hall q hq
        rcases List.mem_cons.mp hq with hq | hq
        · rw [hq]; exact h
        · exact hall q hq
      · intro hall q hq
        exact hall q (List.mem_cons_of_mem p hq)
    | some rows =>
      simp only [siloLoop, h]
      constructor
      · intro hfalse
        exact absurd hfalse (List.cons_ne_nil _ _)
      · intro hall
        have := hall p (List.mem_cons_self p ps)
        rw [h] at this
        cases this

/-- C8: a per-point SILO run in which every fetch fails raises (there is
no table to return), while a run with at least one successful fetch
returns the table holding exactly the rows of the successful points, in
point order, each row tagged with the source tag of its point; a failed
point contributes no rows. -/
theorem c8_silo_success_rows :
    (∀ (points : List SPoint) (fetch : SPoint → Option (List String)),
        (∀ p ∈ points, fetch p = none) →
        siloPointsQuick points fetch
          = Except.error "No tables were downloaded; check API credentials/params.") ∧
    (∀ (points : List SPoint) (fetch : SPoint → Option (List String)) (p0 : SPoint),
        p0 ∈ points → (fetch p0).isSome = true →
        siloPointsQuick points fetch = Except.ok (siloSuccessRows points fetch)) := by
  constructor
  · intro points fetch hall
    unfold siloPointsQuick
    rw [(siloLoop_nil_iff fetch points).mpr hall]
    rfl
  · intro points fetch p0 hmem hsome
    unfold siloPointsQuick
    have hne : siloLoop fetch points ≠ [] := by
      intro hnil
      have := (siloLoop_nil_iff fetch points).mp hnil p0 hmem
      rw [this] at hsome
      cases hsome
    rw [if_neg (by rwa [ne_eq, ← List.isEmpty_iff] at hne), siloLoop_flatten_eq]

/-- C8 witness: a one-point run whose only fetch fails raises, and a
one-point run whose fetch succeeds returns exactly its tagged rows. -/
theorem c8_silo_success_rows_witness :
    siloPointsQuick [{ lon := 1, lat := 2 }] (fun _ => none)
      = Except.error "No tables were downloaded; check API credentials/params." ∧
    siloPointsQuick [{ lon := 1, lat := 2 }] (fun _ => some ["row1"])
      = Except.ok (siloSuccessRows [{ lon := 1, lat := 2 }] (fun _ => some ["row1"])) :=
  ⟨c8_silo_success_rows.1 _ _ (fun _ _ => rfl),
   c8_silo_success_rows.2 _ _ { lon := 1, lat := 2 } (List.mem_singleton.mpr rfl) rfl⟩

/-- C9 counterexample: the claim says an early-stage failure ends the run
with a raised fatal exception.  With config validation passing and the
ROI load failing, the embedded run_pipeline_quick returns the run report
normally (the error recorded under load_roi, no step taken), and no
exception is raised. -/
theorem c9_early_failure_returns_report :
    runPipelineQuick (Except.ok ()) roiFailOutcomes true
      = Except.ok { steps := [], errors := [("load_roi", "boom")], artifacts := [] } ∧
    raisedFatal (runPipelineQuick (Except.ok ()) roiFailOutcomes true) = false :=
  ⟨rfl, rfl⟩

/-- C9 amended: once config validation has passed, the orchestrator never
raises: every run returns a populated run report.  An early-stage failure
(here the ROI load) is recorded in the report and ends the run
immediately with no later step taken, while a late-stage failure (here
the table export) is recorded as non-fatal and the orchestrator proceeds
to the remaining stages. -/
theorem c9_stage_isolation_amended :
    (∀ (o : Outcomes) (pf : Bool),
        ∃ rep, runPipelineQuick (Except.ok ()) o pf = Except.ok rep) ∧
    (∀ (o : Outcomes) (pf : Bool) (e : String),
        o.eeInit = Except.ok () → o.loadRoi = Except.error e →
        runPipelineQuick (Except.ok ()) o pf
          = Except.ok { steps := [], errors := [("load_roi", e)], artifacts := [] }) ∧
    (∀ (o : Outcomes) (e p : String),
        o.eeInit = Except.ok () → o.loadRoi = Except.ok () →
        o.composeTs = Except.ok () → o.mosaics = Except.ok () →
        o.cube = Except.ok () → o.exportTable = Except.error e →
        o.exportSamples = Except.ok (some p) →
        runPipelineQuick (Except.ok ()) o false
          = Except.ok { steps := ["ROI loaded", "Time series composed",
                                  "Monthly mosaics created", "Cube assembled"],
                        errors := [("export_cube_table", e)],
                        artifacts := [(p, "samples")] }) := by
  refine ⟨?_, ?_, ?_⟩
  · intro o pf
    unfold runPipelineQuick
    repeat' split
    all_goals first
      | exact ⟨_, rfl⟩
      | simp_all
  · intro o pf e h1 h2
    unfold runPipelineQuick
    rw [h1, h2]
  · intro o e p h1 h2 h3 h4 h5 h6 h7
    unfold runPipelineQuick
    rw [h1, h2, h3, h4, h5, h6, h7]
    rfl

/-- C9 amended witness: the concrete ROI-failure outcomes return the
report with the load_roi error recorded. -/
theorem c9_stage_isolation_amended_witness :
    runPipelineQuick (Except.ok ()) roiFailOutcomes true
      = Except.ok { steps := [], errors := [("load_roi", "boom")], artifacts := [] } :=
  c9_stage_isolation_amended.2.1 roiFailOutcomes true "boom" rfl rfl

end GeePipeline
